import Mathlib

/-!
Shallow embedding of the BGP query bot's path-analysis core
(`bgp_query_bot`, file `src/unnamed/part_000`, with an older copy in
`src/src/index.ts`).  The embedding models the pure analysis pipeline:
the curated operator table, adjacent-hop deduplication, ASN name
resolution, tier classification, route merging from the two data
sources, percentage ranking, and report assembly.  Network fetches are
out of scope; the analysis is modelled as a function of the two
already-fetched provider responses.

Modelling conventions:
* JS `Record<string, T>` objects are association lists where a later
  binding shadows an earlier one (`Object.assign` appends), read through
  `lookupRecord`.
* JS `Map<string, number>` is an association list in insertion order
  where `set` updates in place (`mapSet`), matching JS Map iteration
  order.
* JS numbers used here are ASN integers and counts, modelled as `Nat`;
  percentages are modelled as exact rationals `ℚ` (the source uses IEEE
  doubles; all claims considered are about ordering and structure, with
  `toFixed(1)` modelled as exact decimal rounding).
* Reading a property of `undefined` (a thrown `TypeError`, caught by the
  top-level `try`) is modelled with `Except String`.
* Indexing an array out of range yields `undefined`; where the source
  then uses the value as an object property key, JS coerces `undefined`
  to the string `"undefined"` (`jsIndexStr`).
-/

deriving instance DecidableEq for Except

namespace BGPBot

/-- Curated operator table, entries in the order of the source literal
`OPERATOR_MAPPING` in `src/unnamed/part_000`. -/
def OPERATOR_MAPPING : List (String × String) := [
  ("12956", "Telxius"),
  ("1299", "Telia"),
  ("174", "Cogent"),
  ("2914", "NTT"),
  ("3257", "GTT"),
  ("3320", "DTAG"),
  ("3356", "Lumen"),
  ("3491", "PCCW"),
  ("5511", "Orange"),
  ("6453", "TATA Communications"),
  ("6461", "Zayo"),
  ("6762", "Sparkle"),
  ("6830", "Liberty"),
  ("701", "Verizon"),
  ("7018", "AT&T"),
  ("4637", "Telstra"),
  ("6939", "HE"),
  ("9002", "RETN"),
  ("137409", "GSL"),
  ("24482", "SG.GS"),
  ("21859", "Zenlayer"),
  ("16276", "OVH"),
  ("24940", "Hetzner"),
  ("35280", "F5"),
  ("3214", "xTom"),
  ("49981", "WorldStream"),
  ("49544", "i3D"),
  ("30844", "Liquid"),
  ("396998", "Path"),
  ("34927", "iFog"),
  ("13335", "Cloudflare"),
  ("15169", "Google"),
  ("8075", "Microsoft"),
  ("16509", "AWS"),
  ("4134", "China Telecom"),
  ("23764", "CTG"),
  ("4809", "CN2"),
  ("4837", "China Unicom"),
  ("9929", "CU2"),
  ("10099", "CUG"),
  ("58807", "CMIN2"),
  ("58453", "CMI"),
  ("9808", "CM"),
  ("4538", "CERN"),
  ("23910", "CERN2"),
  ("1273", "Vodafone"),
  ("2828", "Verizon"),
  ("7922", "Comcast"),
  ("3216", "VEON"),
  ("9498", "Bharti Airtel"),
  ("4766", "Korea Telecom"),
  ("577", "Bell Canada"),
  ("3303", "Swisscom"),
  ("7473", "Singtel"),
  ("4826", "VOCUS"),
  ("9299", "Philippine Long Distance"),
  ("4755", "TATA India"),
  ("906", "DMIT"),
  ("54574", "DMIT"),
  ("32519", "DMIT"),
  ("57695", "Misaka"),
  ("917", "Misaka"),
  ("969", "Misaka"),
  ("35487", "Misaka")]

/-- Provider-supplied metadata for one ASN (interface `ASNInfo`). -/
structure ASNInfo where
  asn : String
  country : String
  descr : String
  org : Option String
deriving Repr, DecidableEq

/-- One observed AS path (interface `ASPath`). -/
structure ASPath where
  type : Nat
  asns : List Nat
deriving Repr, DecidableEq

/-- One observed route (interface `BGPRoute`); `pfx` is the source's
`prefix` field, renamed because the word is reserved in Lean. -/
structure BGPRoute where
  pfx : String
  aspath : List ASPath
  neighborip : String
  origin : Nat
  asnmap : List (String × ASNInfo)
deriving Repr, DecidableEq

/-- One provider response (interface `BGPResponse`). -/
structure BGPResponse where
  count : Nat
  response : List BGPRoute
deriving Repr, DecidableEq

/-- One ranked result entry (interface `PathInfo`); `percentage` is an
exact rational here. -/
structure PathInfo where
  path : String
  count : Nat
  percentage : ℚ
  tier : String
deriving Repr, DecidableEq

/-- Reading a JS `Record` at a key: the last binding wins, since
`Object.assign` lets later writes shadow earlier ones. -/
def lookupRecord (m : List (String × ASNInfo)) (k : String) : Option ASNInfo :=
  m.foldl (fun acc p => if p.1 = k then some p.2 else acc) none

/-- JS `Object.assign(target, source)`: source keys overwrite target keys. -/
def recordAssign (base upd : List (String × ASNInfo)) : List (String × ASNInfo) :=
  base ++ upd

/-- JS truthiness of an optional string: `undefined` and `""` are falsy. -/
def jsTruthyStr : Option String → Bool
  | none => false
  | some s => s ≠ ""

/-- JS array indexing used as an object property key: an out-of-range
read gives `undefined`, which property lookup coerces to the string
`"undefined"`. -/
def jsIndexStr (l : List String) (i : Nat) : String :=
  (l.get? i).getD "undefined"

/-- Source `isTier1ASN`: `OPERATOR_MAPPING.hasOwnProperty(asn)`. -/
def isTier1ASN (asn : String) : Bool :=
  (OPERATOR_MAPPING.lookup asn).isSome

/-- Source `deduplicatePath`:
`path.filter((asn, index) => asn !== path[index + 1])`. -/
def deduplicatePath (path : List String) : List String :=
  ((path.enum.filter (fun p => some p.2 != path.get? (p.1 + 1))).map Prod.snd)

/-- Whitespace class of the JS regex `\s` (and of `String.prototype.trim`). -/
def isJsSpace (c : Char) : Bool :=
  c == ' ' || c == '\t' || c == '\n' || c == '\r' ||
  c == Char.ofNat 11 || c == Char.ofNat 12 || c == Char.ofNat 0xa0 ||
  c == Char.ofNat 0x1680 || (0x2000 ≤ c.toNat && c.toNat ≤ 0x200a) ||
  c == Char.ofNat 0x2028 || c == Char.ofNat 0x2029 || c == Char.ofNat 0x202f ||
  c == Char.ofNat 0x205f || c == Char.ofNat 0x3000 || c == Char.ofNat 0xfeff

/-- Corporate suffix alternatives of the regex
`\s(AS|Ltd\.?|Inc\.?|Corp\.?|Limited|Corporation)$`, lower-cased; the
optional dots are expanded into separate alternatives. -/
def SUFFIX_TOKENS : List String :=
  ["as", "ltd", "ltd.", "inc", "inc.", "corp", "corp.", "limited", "corporation"]

/-- Does `rest` consist exactly of one of the suffix tokens,
case-insensitively (the `/i` flag)? -/
def matchesSuffixToken (rest : List Char) : Bool :=
  SUFFIX_TOKENS.any (fun tok => rest.map Char.toLower == tok.toList)

/-- JS `s.split(sep)[0]`: the part of the string before the first
occurrence of the separator (the whole string when absent). -/
def takeBefore (sep : Char) (l : List Char) : List Char :=
  l.takeWhile (fun x => x != sep)

/-- The regex replace
`.replace(/\s(AS|Ltd\.?|Inc\.?|Corp\.?|Limited|Corporation)$/i, '')`:
remove the leftmost (hence unique, as the tokens contain no whitespace)
suffix of the form whitespace-plus-token. -/
def stripCorpSuffix : List Char → List Char
  | [] => []
  | c :: rest =>
    if isJsSpace c && matchesSuffixToken rest then []
    else c :: stripCorpSuffix rest

/-- JS `String.prototype.trim()`. -/
def trimChars (l : List Char) : List Char :=
  ((l.dropWhile isJsSpace).reverse.dropWhile isJsSpace).reverse

/-- The `descr`-derived name of `getASNName`:
`descr.split(',')[0].split('-')[0].replace(/\s(AS|Ltd\.?|Inc\.?|Corp\.?|Limited|Corporation)$/i, '').trim()`. -/
def cleanDescr (descr : String) : String :=
  ⟨trimChars (stripCorpSuffix (takeBefore '-' (takeBefore ',' descr.data)))⟩

/-- Source `getASNName(asn, asnmap)`: curated table first (truthy value),
then non-empty `org`, then cleaned non-empty `descr`, then the ASN
itself. -/
def getASNName (asn : String) (asnmap : List (String × ASNInfo)) : String :=
  let mappedName := OPERATOR_MAPPING.lookup asn
  if jsTruthyStr mappedName then mappedName.getD ""
  else
    let asnInfo := lookupRecord asnmap asn
    if jsTruthyStr (asnInfo.bind (fun i => i.org)) then
      (asnInfo.bind (fun i => i.org)).getD ""
    else if jsTruthyStr (asnInfo.map (fun i => i.descr)) then
      cleanDescr ((asnInfo.map (fun i => i.descr)).getD "")
    else asn

/-- Spec-side restatement of the deduplication rule, written from the
claim's words: keep the element at position `i` exactly when it differs
from the element at position `i + 1` (the last element is always kept). -/
def dedupSpecPositions (path : List String) : List String :=
  (List.range path.length).filterMap (fun i =>
    if path.get? i = path.get? (i + 1) then none else path.get? i)

/-- Recursion-friendly form of `deduplicatePath`, used only inside
proofs. -/
def dedupRec : List String → List String
  | [] => []
  | [a] => [a]
  | a :: b :: t => if a = b then dedupRec (b :: t) else a :: dedupRec (b :: t)

/-! ### Route merging (`analyzeBGPData`, collection phase) -/

/-- Comma-joined decimal rendering of an ASN sequence,
`asns.join(',')`. -/
def joinComma (asns : List Nat) : String :=
  String.intercalate "," (asns.map (fun n => toString n))

/-- The raw merge key `route.aspath[0].asns.join(',')`.  Reading
`aspath[0].asns` of a route with an empty `aspath` throws a `TypeError`
in JS, modelled as `Except.error`. -/
def routeKey (r : BGPRoute) : Except String String :=
  match r.aspath with
  | [] => .error "Cannot read properties of undefined (reading 'asns')"
  | ap :: _ => .ok (joinComma ap.asns)

/-- JS `allRoutes.some(r => r.aspath[0].asns.join(',') === pathString)`:
a left-to-right scan that stops at the first match, so a malformed route
after a match is never read. -/
def someKeyEq (rs : List BGPRoute) (key : String) : Except String Bool :=
  match rs with
  | [] => .ok false
  | r :: rest => do
    let k ← routeKey r
    if k = key then pure true else someKeyEq rest key

/-- The HE.net phase of the merge: push every route unconditionally and
union its metadata into the global map. -/
def heMerge (routes : List BGPRoute) : List BGPRoute × List (String × ASNInfo) :=
  routes.foldl (fun acc r => (acc.1 ++ [r], recordAssign acc.2 r.asnmap)) ([], [])

/-- The BGP.tools phase of the merge: for each route, append it and union
its metadata only when no route already in the list has the identical
comma-joined key. -/
def bgpToolsMerge (routes : List BGPRoute)
    (acc : List BGPRoute × List (String × ASNInfo)) :
    Except String (List BGPRoute × List (String × ASNInfo)) :=
  match routes with
  | [] => .ok acc
  | route :: rest => do
    let pathString ← routeKey route
    let ex ← someKeyEq acc.1 pathString
    if ex then bgpToolsMerge rest acc
    else bgpToolsMerge rest (acc.1 ++ [route], recordAssign acc.2 route.asnmap)

/-- The result of the collection phase of `analyzeBGPData`: the merged
route list, the global ASN metadata map, and the two per-source raw
counts (taken from each response's `count` field). -/
structure MergeResult where
  allRoutes : List BGPRoute
  allASNMap : List (String × ASNInfo)
  heCount : Nat
  bgpToolsCount : Nat
deriving Repr, DecidableEq

/-- The collection phase of `analyzeBGPData` (lines 269-294 of
`part_000`): HE.net routes are pushed unconditionally, BGP.tools routes
are deduplicated against the list by comma-joined key. -/
def mergeAll (heData bgpToolsData : Option BGPResponse) :
    Except String MergeResult := do
  let (heCount, st1) :=
    match heData with
    | some d => (d.count, heMerge d.response)
    | none => (0, ([], []))
  match bgpToolsData with
  | some d => do
    let st2 ← bgpToolsMerge d.response st1
    pure ⟨st2.1, st2.2, heCount, d.count⟩
  | none => pure ⟨st1.1, st1.2, heCount, 0⟩

/-! ### Tier classification -/

/-- The four per-tier tallies (`tierStats`), each a JS `Map` in insertion
order. -/
structure TierStats where
  direct : List (String × Nat)
  tier1 : List (String × Nat)
  tier2 : List (String × Nat)
  tier3 : List (String × Nat)
deriving Repr, DecidableEq

/-- The empty tally. -/
def emptyStats : TierStats := ⟨[], [], [], []⟩

/-- JS `Map.prototype.set`: update the value in place when the key is
present (keeping insertion order), else append. -/
def mapSet : List (String × Nat) → String → Nat → List (String × Nat)
  | [], k, v => [(k, v)]
  | (k', v') :: rest, k, v =>
    if k' = k then (k, v) :: rest else (k', v') :: mapSet rest k v

/-- The increment pattern `map.set(key, (map.get(key) || 0) + 1)`. -/
def mapIncr (m : List (String × Nat)) (k : String) : List (String × Nat) :=
  mapSet m k ((m.lookup k).getD 0 + 1)

/-- JS `namedPath[namedPath.length - 1] = 'END'`: on an empty array this
writes property `-1`, invisible to iteration, so the list is unchanged. -/
def setLast (l : List String) (v : String) : List String :=
  if l = [] then l else l.dropLast ++ [v]

/-- JS `slice(-k)`: the last `k` elements (the whole list when shorter). -/
def jsSliceNeg (l : List String) (k : Nat) : List String :=
  l.drop (l.length - k)

/-- The deduplicated stringified ASN sequence of one route's first AS
path: `deduplicatePath(route.aspath[0].asns.map(asn => asn.toString()))`. -/
def dedupedOf (ap : ASPath) : List String :=
  deduplicatePath (ap.asns.map (fun n => toString n))

/-- The display-name sequence: resolved names with the last overwritten
by the literal `END`. -/
def namedPathOf (allASNMap : List (String × ASNInfo)) (deduped : List String) :
    List String :=
  setLast (deduped.map (fun a => getASNName a allASNMap)) "END"

/-- Classification of one route (the body of the `allRoutes.forEach` at
lines 311-343 of `part_000`).  A route with no `aspath[0]` (guard
`!route.aspath?.[0]?.asns`) is skipped; note an empty `asns` array is
truthy in JS and is NOT skipped. -/
def classifyRoute (allASNMap : List (String × ASNInfo)) (stats : TierStats)
    (route : BGPRoute) : TierStats :=
  match route.aspath.head? with
  | none => stats
  | some ap =>
    let dedupedASNs := dedupedOf ap
    let namedPath := namedPathOf allASNMap dedupedASNs
    let pathLength := dedupedASNs.length
    let s1 :=
      if pathLength ≤ 2 ∧ isTier1ASN (jsIndexStr dedupedASNs 0) = false then
        { stats with direct := mapIncr stats.direct "DIRECT" }
      else stats
    let s2 :=
      if pathLength ≥ 2 ∧
          isTier1ASN (jsIndexStr dedupedASNs (dedupedASNs.length - 2)) = true then
        { s1 with tier1 := mapIncr s1.tier1 (jsIndexStr namedPath (namedPath.length - 2)) }
      else s1
    let s3 :=
      if pathLength ≥ 3 then
        { s2 with tier2 := mapIncr s2.tier2 (String.intercalate " -> " (jsSliceNeg namedPath 3)) }
      else s2
    if pathLength ≥ 4 then
      { s3 with tier3 := mapIncr s3.tier3 (String.intercalate " -> " (jsSliceNeg namedPath 4)) }
    else s3

/-- The whole classification loop over the merged routes. -/
def classifyAll (allASNMap : List (String × ASNInfo)) (routes : List BGPRoute) :
    TierStats :=
  routes.foldl (classifyRoute allASNMap) emptyStats

/-- Source `const totalPaths = allRoutes.length`. -/
def totalPathsOf (allRoutes : List BGPRoute) : Nat := allRoutes.length

/-! ### Ranking (`convertToSortedArray`) and report assembly -/

/-- The map phase of `convertToSortedArray`: bucket entries to `PathInfo`
records, `percentage: (count / totalPaths) * 100`. -/
def bucketInfos (totalPaths : Nat) (m : List (String × Nat)) (tier : String) :
    List PathInfo :=
  m.map (fun p => ⟨p.1, p.2, (p.2 : ℚ) / (totalPaths : ℚ) * 100, tier⟩)

/-- Descending-percentage comparison; the JS comparator
`(a, b) => b.percentage - a.percentage` orders by descending percentage
and JS `Array.prototype.sort` is stable. -/
def pctGE (a b : PathInfo) : Bool := decide (b.percentage ≤ a.percentage)

/-- Source `convertToSortedArray(map, tier)`: map to `PathInfo`, stable
sort by descending percentage, take the first 5. -/
def convertToSortedArray (totalPaths : Nat) (m : List (String × Nat))
    (tier : String) : List PathInfo :=
  ((bucketInfos totalPaths m tier).mergeSort pctGE).take 5

/-- The concatenation `allPaths` of the four ranked buckets, in the fixed
source order with the fixed tier labels. -/
def allPathsOf (totalPaths : Nat) (stats : TierStats) : List PathInfo :=
  convertToSortedArray totalPaths stats.direct "DIRECT" ++
  convertToSortedArray totalPaths stats.tier1 "T1" ++
  convertToSortedArray totalPaths stats.tier2 "T2" ++
  convertToSortedArray totalPaths stats.tier3 "T3"

/-- The displayed portion `allPaths.slice(0, 15)`. -/
def displayedPaths (totalPaths : Nat) (stats : TierStats) : List PathInfo :=
  (allPathsOf totalPaths stats).take 15

/-- Model of `Number.prototype.toFixed(1)` on a nonnegative rational:
round to the nearest tenth, half away from zero. -/
def toFixed1 (q : ℚ) : String :=
  let n : ℤ := ⌊q * 10 + 1 / 2⌋
  let d : Nat := n.toNat
  s!"{d / 10}.{d % 10}"

/-- The "no valid routes" report (line 298 of `part_000`). -/
def noRoutesMsg (cidr : String) : String :=
  s!"查询CIDR段: {cidr}\n未找到任何有效的BGP路由信息。"

/-- The catch-all error report (line 394 of `part_000`). -/
def errorMsg (e : String) : String :=
  s!"查询出错: {e}\n请稍后重试。"

/-- The per-source statistics line fragment. -/
def sourceCountStr (c : Nat) : String :=
  if c > 0 then s!"{c}条路由" else "获取失败"

/-- The report body for a non-empty merged route set (lines 364-390 of
`part_000`): target ASN extraction, the statistics block, and the ranked
path lines; empty lines are removed by `.filter(Boolean)`. -/
def buildReport (cidr : String) (mr : MergeResult) : String :=
  let totalPaths := totalPathsOf mr.allRoutes
  let stats := classifyAll mr.allASNMap mr.allRoutes
  let allPaths := allPathsOf totalPaths stats
  let targetASN :=
    match mr.allRoutes.head? with
    | some r =>
      match r.aspath.head? with
      | some ap =>
        if ap.asns.length > 0 then
          (ap.asns.getLast?.map (fun n => toString n)).getD ""
        else ""
      | none => ""
    | none => ""
  let asnInfo := if targetASN = "" then none else lookupRecord mr.allASNMap targetASN
  let lines : List String :=
    [s!"查询CIDR段: {cidr}",
     if targetASN ≠ "" then s!"ASN号: {targetASN}" else "未找到ASN信息",
     match asnInfo with
     | some i =>
       let nm := if jsTruthyStr i.org then i.org.getD ""
                 else if i.descr ≠ "" then i.descr else "Unknown"
       s!"ASN名: {nm}"
     | none => "",
     match asnInfo with
     | some i =>
       let ct := if i.country ≠ "" then i.country else "Unknown"
       s!"地区: {ct}"
     | none => "",
     "",
     "\n数据源统计:",
     s!"- HE.net: {sourceCountStr mr.heCount}",
     s!"- BGP.tools: {sourceCountStr mr.bgpToolsCount}",
     s!"- 合并去重后: {totalPaths}条路由",
     "",
     "\n路由分析:"] ++
    (allPaths.take 15).map (fun p => s!"{toFixed1 p.percentage}% [{p.tier}] {p.path}")
  String.intercalate "\n" (lines.filter (fun s => s ≠ ""))

/-- The analysis pipeline `analyzeBGPData` modelled as a function of the
two already-fetched provider responses (`none` = that source failed):
the no-data throw, the merge, the empty-merge early return, and the
report; a thrown error is caught and rendered by `errorMsg`. -/
def analyzeBGPData (cidr : String) (heData bgpToolsData : Option BGPResponse) :
    String :=
  let run : Except String String := do
    if heData.isNone ∧ bgpToolsData.isNone then
      throw "No data available from any source"
    let mr ← mergeAll heData bgpToolsData
    if mr.allRoutes = [] then
      pure (noRoutesMsg cidr)
    else
      pure (buildReport cidr mr)
  match run with
  | .ok s => s
  | .error e => errorMsg e

/-! ## Helper lemmas -/

theorem getASNName_mapped {asn name : String} (m : List (String × ASNInfo))
    (h : OPERATOR_MAPPING.lookup asn = some name) (hne : name ≠ "") :
    getASNName asn m = name := by
  simp [getASNName, h, jsTruthyStr, hne]

theorem getASNName_unmapped_nometa {asn : String} {m : List (String × ASNInfo)}
    (h : OPERATOR_MAPPING.lookup asn = none) (h2 : lookupRecord m asn = none) :
    getASNName asn m = asn := by
  simp [getASNName, h, h2, jsTruthyStr]

theorem classifyRoute_no_aspath (m : List (String × ASNInfo)) (s : TierStats)
    (route : BGPRoute) (h : route.aspath = []) :
    classifyRoute m s route = s := by
  simp [classifyRoute, h]

theorem dedup_cons (a : String) (l : List String) :
    deduplicatePath (a :: l) =
      (if l.head? = some a then [] else [a]) ++ deduplicatePath l := by
  simp only [deduplicatePath, List.enum_cons', List.filter_cons, List.filter_map,
    List.map_map, Function.comp, Prod.map_apply, id, List.get?_cons_succ,
    List.get?_zero]
  split
  · next h =>
    rw [if_neg]
    · simp [Function.comp_def, Prod.map_apply]
    · simp only [bne_iff_ne, ne_eq] at h
      intro hh
      exact h hh.symm
  · next h =>
    rw [if_pos]
    · simp [Function.comp_def, Prod.map_apply]
    · simp only [bne_iff_ne, ne_eq, not_not] at h
      exact h.symm

theorem dedupSpec_cons (a : String) (l : List String) :
    dedupSpecPositions (a :: l) =
      (if l.head? = some a then [] else [a]) ++ dedupSpecPositions l := by
  simp only [dedupSpecPositions, List.length_cons, List.range_succ_eq_map,
    List.filterMap_cons, List.filterMap_map, List.get?_cons_succ, List.get?_zero]
  by_cases h : l.head? = some a
  · rw [if_pos h, if_pos (by simpa using h.symm)]
    simp [Function.comp_def]
  · rw [if_neg h, if_neg (by simpa using fun hh => h hh.symm)]
    simp [Function.comp_def]

theorem dedup_eq_dedupRec : ∀ l : List String, deduplicatePath l = dedupRec l
  | [] => rfl
  | [a] => by
    rw [dedup_cons]
    simp [dedupRec, deduplicatePath]
  | a :: b :: t => by
    rw [dedup_cons, dedup_eq_dedupRec (b :: t)]
    simp only [List.head?_cons, Option.some.injEq, dedupRec]
    by_cases h : a = b
    · simp [h]
    · rw [if_neg (fun hh => h hh.symm), if_neg h]
      simp

theorem dedup_eq_spec : ∀ l : List String, deduplicatePath l = dedupSpecPositions l
  | [] => rfl
  | a :: t => by
    rw [dedup_cons, dedupSpec_cons, dedup_eq_spec t]

theorem dedupRec_sublist : ∀ l : List String, List.Sublist (dedupRec l) l
  | [] => by simp [dedupRec]
  | [a] => by simp [dedupRec]
  | a :: b :: t => by
    rw [dedupRec]
    split
    · exact (dedupRec_sublist (b :: t)).cons a
    · exact (dedupRec_sublist (b :: t)).cons₂ a

theorem dedupRec_length_lt :
    ∀ l : List String,
      (∃ i, i + 1 < l.length ∧ l.get? i = l.get? (i + 1)) →
      (dedupRec l).length < l.length
  | [] => by
    rintro ⟨i, hi, -⟩
    simp at hi
  | [a] => by
    rintro ⟨i, hi, -⟩
    simp at hi
  | a :: b :: t => by
    rintro ⟨i, hi, heq⟩
    rw [dedupRec]
    by_cases hab : a = b
    · rw [if_pos hab]
      have hle := (dedupRec_sublist (b :: t)).length_le
      simp only [List.length_cons] at *
      omega
    · rw [if_neg hab]
      have hex : ∃ j, j + 1 < (b :: t).length ∧ (b :: t).get? j = (b :: t).get? (j + 1) := by
        cases i with
        | zero =>
          exfalso
          apply hab
          simpa using heq
        | succ j =>
          exact ⟨j, by simpa using hi, by simpa using heq⟩
      have ih := dedupRec_length_lt (b :: t) hex
      simp only [List.length_cons] at *
      omega

/-- C2: `deduplicatePath` removes exactly the elements at positions `i`
with `path[i] = path[i+1]` (so a non-adjacent reappearance is kept), the
surviving hops keep their relative order (the result is a sublist of the
input), and an input with at least one adjacent repeated hop strictly
shrinks. -/
theorem c2_deduplicatePath_spec (path : List String) :
    deduplicatePath path = dedupSpecPositions path ∧
    List.Sublist (deduplicatePath path) path ∧
    ((∃ i, i + 1 < path.length ∧ path.get? i = path.get? (i + 1)) →
      (deduplicatePath path).length < path.length) := by
  refine ⟨dedup_eq_spec path, ?_, ?_⟩
  · rw [dedup_eq_dedupRec]
    exact dedupRec_sublist path
  · intro hex
    rw [dedup_eq_dedupRec]
    exact dedupRec_length_lt path hex

/-- C2 witness: the path `["1", "1", "2"]` has an adjacent duplicate at
position 0, deduplicates to the positions characterised by the spec, and
strictly shrinks. -/
theorem c2_witness :
    deduplicatePath ["1", "1", "2"] = dedupSpecPositions ["1", "1", "2"] ∧
    List.Sublist (deduplicatePath ["1", "1", "2"]) ["1", "1", "2"] ∧
    (deduplicatePath ["1", "1", "2"]).length <
      (["1", "1", "2"] : List String).length :=
  ⟨(c2_deduplicatePath_spec ["1", "1", "2"]).1,
   (c2_deduplicatePath_spec ["1", "1", "2"]).2.1,
   (c2_deduplicatePath_spec ["1", "1", "2"]).2.2 ⟨0, by decide, by decide⟩⟩

theorem operator_lookup_ne_empty {asn name : String}
    (h : OPERATOR_MAPPING.lookup asn = some name) : name ≠ "" := by
  rcases List.lookup_eq_some_iff.mp h with ⟨l₁, l₂, heq, -⟩
  have hmem : (asn, name) ∈ OPERATOR_MAPPING := by
    rw [heq]
    exact List.mem_append_right _ (List.mem_cons_self _ _)
  have hall : ∀ p ∈ OPERATOR_MAPPING, p.2 ≠ "" := by decide
  exact hall _ hmem

/-- C3: `getASNName` follows the strict priority order — the curated
table always wins whatever the metadata says; else a non-empty `org` is
returned verbatim; else a non-empty `descr` is cut at the first comma,
then at the first hyphen, has a trailing whitespace-preceded corporate
suffix token stripped and is trimmed (`cleanDescr`); else the ASN string
itself is returned. -/
theorem c3_getASNName_priority (asn : String) (m : List (String × ASNInfo)) :
    (∀ name, OPERATOR_MAPPING.lookup asn = some name →
      getASNName asn m = name) ∧
    (OPERATOR_MAPPING.lookup asn = none →
      ∀ info, lookupRecord m asn = some info →
        (∀ o, info.org = some o → o ≠ "" → getASNName asn m = o) ∧
        ((info.org = none ∨ info.org = some "") → info.descr ≠ "" →
          getASNName asn m = cleanDescr info.descr) ∧
        ((info.org = none ∨ info.org = some "") → info.descr = "" →
          getASNName asn m = asn)) ∧
    (OPERATOR_MAPPING.lookup asn = none → lookupRecord m asn = none →
      getASNName asn m = asn) := by
  refine ⟨?_, ?_, ?_⟩
  · intro name h
    exact getASNName_mapped m h (operator_lookup_ne_empty h)
  · intro h info hinfo
    refine ⟨?_, ?_, ?_⟩
    · intro o ho hone
      simp [getASNName, h, hinfo, ho, jsTruthyStr, hone]
    · rintro (ho | ho) hd <;>
        simp [getASNName, h, hinfo, ho, jsTruthyStr, hd]
    · rintro (ho | ho) hd <;>
        simp [getASNName, h, hinfo, ho, jsTruthyStr, hd]
  · intro h h2
    exact getASNName_unmapped_nometa h h2

/-- C3 witness: the curated entry `7018` beats richer metadata, and a
`descr`-only entry is cleaned (comma cut, then suffix strip, then trim). -/
theorem c3_witness :
    getASNName "7018" [("7018", ⟨"7018", "US", "Ignored Descr", some "IgnoredOrg"⟩)] =
      "AT&T" ∧
    getASNName "65001" [("65001", ⟨"65001", "HK", "Example Networks Ltd., Hong Kong", none⟩)] =
      "Example Networks" := by
  constructor
  · exact (c3_getASNName_priority "7018"
      [("7018", ⟨"7018", "US", "Ignored Descr", some "IgnoredOrg"⟩)]).1 "AT&T" (by decide)
  · have h := ((c3_getASNName_priority "65001"
      [("65001", ⟨"65001", "HK", "Example Networks Ltd., Hong Kong", none⟩)]).2.1
      (by decide) ⟨"65001", "HK", "Example Networks Ltd., Hong Kong", none⟩
      (by decide)).2.1 (Or.inl rfl) (by decide)
    rw [h]
    decide

/-! ## Claims about the route merger -/

theorem except_ok_bind {ε α β : Type} (a : α) (f : α → Except ε β) :
    (Except.ok a : Except ε α) >>= f = f a := rfl

theorem except_map_ok {ε α β : Type} (a : α) (f : α → β) :
    Except.map f (Except.ok a : Except ε α) = .ok (f a) := rfl

theorem except_pure {ε α : Type} (a : α) :
    (pure a : Except ε α) = .ok a := rfl

theorem heMerge_go (l : List BGPRoute) :
    ∀ acc : List BGPRoute × List (String × ASNInfo),
      (l.foldl (fun acc r => (acc.1 ++ [r], recordAssign acc.2 r.asnmap)) acc).1 =
        acc.1 ++ l := by
  induction l with
  | nil => simp
  | cons r t ih =>
    intro acc
    simp [List.foldl_cons, ih]

theorem heMerge_fst (l : List BGPRoute) : (heMerge l).1 = l := by
  simpa using heMerge_go l ([], [])

theorem someKeyEq_true {rs : List BGPRoute} {k : String}
    (hwf : ∀ r ∈ rs, r.aspath ≠ [])
    (hex : ∃ r ∈ rs, routeKey r = .ok k) :
    someKeyEq rs k = .ok true := by
  induction rs with
  | nil =>
    rcases hex with ⟨r, hr, -⟩
    cases hr
  | cons r t ih =>
    obtain ⟨ap, rest, hap⟩ : ∃ ap rest, r.aspath = ap :: rest := by
      cases hr : r.aspath with
      | nil => exact absurd hr (hwf r (List.mem_cons_self _ _))
      | cons ap rest => exact ⟨ap, rest, rfl⟩
    have hk : routeKey r = .ok (joinComma ap.asns) := by simp [routeKey, hap]
    by_cases heq : joinComma ap.asns = k
    · simp [someKeyEq, hk, heq, except_ok_bind, except_pure]
    · have hex' : ∃ r' ∈ t, routeKey r' = .ok k := by
        rcases hex with ⟨r', hr', hkr⟩
        rcases List.mem_cons.mp hr' with rfl | hmem
        · rw [hk] at hkr
          exact absurd (by injection hkr) heq
        · exact ⟨r', hmem, hkr⟩
      have ih' := ih (fun x hx => hwf x (List.mem_cons_of_mem _ hx)) hex'
      simp [someKeyEq, hk, heq, ih', except_ok_bind]

theorem bgpToolsMerge_id {rs : List BGPRoute} {mAcc : List (String × ASNInfo)}
    {bs : List BGPRoute}
    (hwf : ∀ r ∈ rs, r.aspath ≠ [])
    (hmatch : ∀ b ∈ bs, ∃ k, routeKey b = .ok k ∧ ∃ a ∈ rs, routeKey a = .ok k) :
    bgpToolsMerge bs (rs, mAcc) = .ok (rs, mAcc) := by
  induction bs with
  | nil => rfl
  | cons b t ih =>
    obtain ⟨k, hbk, hex⟩ := hmatch b (List.mem_cons_self _ _)
    have hsome := someKeyEq_true hwf hex
    have ih' := ih (fun x hx => hmatch x (List.mem_cons_of_mem _ hx))
    simp [bgpToolsMerge, hbk, hsome, ih', except_ok_bind]

/-- C4 counterexample: at a concrete pair of responses where source B
repeats source A's single path `[1]` but carries a metadata record for
ASN `1`, the merged list keeps only the first copy (count 1) but the
global ASN metadata map does NOT contain the discarded route's record
(the lookup is `none`), contradicting the claim that it is still
unioned in. -/
theorem c4_counterexample :
    (mergeAll (some ⟨1, [⟨"p", [⟨1, [1]⟩], "", 0, []⟩]⟩)
        (some ⟨1, [⟨"p", [⟨1, [1]⟩], "", 0, [("1", ⟨"1", "", "BInfo", none⟩)]⟩]⟩)).map
        (fun mr => (mr.allRoutes.length, lookupRecord mr.allASNMap "1")) =
      .ok (1, none) := by
  decide

/-- C4 amended: when source B supplies a route whose comma-joined raw
key is identical to that of a route already in the merged list, the
route is discarded entirely: neither the merged list nor the global ASN
metadata map changes — only accepted routes contribute metadata. -/
theorem c4_amended_discarded_metadata_dropped (rs : List BGPRoute)
    (mAcc : List (String × ASNInfo)) (route : BGPRoute) (rest : List BGPRoute)
    (k : String) (hk : routeKey route = .ok k)
    (hex : someKeyEq rs k = .ok true) :
    bgpToolsMerge (route :: rest) (rs, mAcc) = bgpToolsMerge rest (rs, mAcc) := by
  simp [bgpToolsMerge, hk, hex, except_ok_bind]

/-- C4 amended witness: the duplicate route with fresh metadata is
dropped without touching the state. -/
theorem c4_amended_witness :
    bgpToolsMerge [⟨"p", [⟨1, [1]⟩], "", 0, [("1", ⟨"1", "", "BInfo", none⟩)]⟩]
        ([⟨"p", [⟨1, [1]⟩], "", 0, []⟩], []) =
      bgpToolsMerge [] ([⟨"p", [⟨1, [1]⟩], "", 0, []⟩], []) :=
  c4_amended_discarded_metadata_dropped [⟨"p", [⟨1, [1]⟩], "", 0, []⟩] []
    ⟨"p", [⟨1, [1]⟩], "", 0, [("1", ⟨"1", "", "BInfo", none⟩)]⟩ [] "1"
    (by decide) (by decide)

/-- C5: when every route of source B has a comma-joined raw key
identical to that of some route of source A (A's routes being
well-formed), the merge keeps exactly A's routes — so the merged count
equals the count from merging A alone — while the separately reported
per-source raw counts are the two responses' `count` fields, untouched. -/
theorem c5_merge_idempotent (ca cb : Nat) (aRoutes bRoutes : List BGPRoute)
    (hwf : ∀ r ∈ aRoutes, r.aspath ≠ [])
    (hmatch : ∀ b ∈ bRoutes,
      ∃ k, routeKey b = .ok k ∧ ∃ a ∈ aRoutes, routeKey a = .ok k) :
    (mergeAll (some ⟨ca, aRoutes⟩) (some ⟨cb, bRoutes⟩)).map
        (fun mr => mr.allRoutes.length) = .ok aRoutes.length ∧
    (mergeAll (some ⟨ca, aRoutes⟩) none).map
        (fun mr => mr.allRoutes.length) = .ok aRoutes.length ∧
    (mergeAll (some ⟨ca, aRoutes⟩) (some ⟨cb, bRoutes⟩)).map
        (fun mr => (mr.heCount, mr.bgpToolsCount)) = .ok (ca, cb) := by
  have h1 : (heMerge aRoutes).1 = aRoutes := heMerge_fst aRoutes
  have hpair : heMerge aRoutes = (aRoutes, (heMerge aRoutes).2) :=
    Prod.ext h1 rfl
  have hmerge : bgpToolsMerge bRoutes (heMerge aRoutes) =
      .ok (aRoutes, (heMerge aRoutes).2) := by
    rw [hpair]
    exact bgpToolsMerge_id hwf hmatch
  refine ⟨?_, ?_, ?_⟩ <;>
    simp [mergeAll, hmerge, h1, except_ok_bind, except_map_ok, except_pure]

/-- C5 witness: both sources reporting the identical single path
`[3356, 65000]` merge to a single route while the per-source raw counts
stay 1 and 1. -/
theorem c5_witness :
    (mergeAll (some ⟨1, [⟨"23.249.16.0/23", [⟨1, [3356, 65000]⟩], "", 0, []⟩]⟩)
        (some ⟨1, [⟨"23.249.16.0/23", [⟨1, [3356, 65000]⟩], "n", 0, []⟩]⟩)).map
        (fun mr => mr.allRoutes.length) = .ok 1 ∧
    (mergeAll (some ⟨1, [⟨"23.249.16.0/23", [⟨1, [3356, 65000]⟩], "", 0, []⟩]⟩)
        none).map (fun mr => mr.allRoutes.length) = .ok 1 ∧
    (mergeAll (some ⟨1, [⟨"23.249.16.0/23", [⟨1, [3356, 65000]⟩], "", 0, []⟩]⟩)
        (some ⟨1, [⟨"23.249.16.0/23", [⟨1, [3356, 65000]⟩], "n", 0, []⟩]⟩)).map
        (fun mr => (mr.heCount, mr.bgpToolsCount)) = .ok (1, 1) :=
  c5_merge_idempotent 1 1
    [⟨"23.249.16.0/23", [⟨1, [3356, 65000]⟩], "", 0, []⟩]
    [⟨"23.249.16.0/23", [⟨1, [3356, 65000]⟩], "n", 0, []⟩]
    (by
      intro r hr
      rcases List.mem_singleton.mp hr with rfl
      decide)
    (by
      intro b hb
      rcases List.mem_singleton.mp hb with rfl
      exact ⟨"3356,65000", by decide,
        ⟨"23.249.16.0/23", [⟨1, [3356, 65000]⟩], "", 0, []⟩,
        List.mem_singleton_self _, by decide⟩)

/-! ## Claims about the tier classifier -/

/-- C7: the route with raw path `[100, 100, 7018, 65000]`, with `7018`
curated as `AT&T` and `100`, `65000` absent from table and metadata,
deduplicates to `[100, 7018, 65000]`, displays as
`["100", "AT&T", "END"]`, increments TIER1 at `"AT&T"` and TIER2 at
`"100 -> AT&T -> END"`, and leaves DIRECT (and TIER3) unchanged. -/
theorem c7_scenario (m : List (String × ASNInfo)) (stats : TierStats)
    (h100 : lookupRecord m "100" = none) (h65000 : lookupRecord m "65000" = none) :
    dedupedOf ⟨1, [100, 100, 7018, 65000]⟩ = ["100", "7018", "65000"] ∧
    namedPathOf m ["100", "7018", "65000"] = ["100", "AT&T", "END"] ∧
    classifyRoute m stats ⟨"0.0.0.0/0", [⟨1, [100, 100, 7018, 65000]⟩], "", 0, []⟩ =
      { stats with tier1 := mapIncr stats.tier1 "AT&T",
                   tier2 := mapIncr stats.tier2 "100 -> AT&T -> END" } := by
  have t100 : getASNName "100" m = "100" :=
    getASNName_unmapped_nometa (by decide) h100
  have t65000 : getASNName "65000" m = "65000" :=
    getASNName_unmapped_nometa (by decide) h65000
  have t7018 : getASNName "7018" m = "AT&T" :=
    getASNName_mapped m (by decide) (by decide)
  have hd : dedupedOf ⟨1, [100, 100, 7018, 65000]⟩ = ["100", "7018", "65000"] := by
    decide
  have hn : namedPathOf m ["100", "7018", "65000"] = ["100", "AT&T", "END"] := by
    simp [namedPathOf, setLast, t100, t7018, t65000]
  refine ⟨hd, hn, ?_⟩
  have ht : isTier1ASN "7018" = true := by decide
  have hs : String.intercalate " -> " (jsSliceNeg ["100", "AT&T", "END"] 3) =
      "100 -> AT&T -> END" := by decide
  simp [classifyRoute, hd, hn, jsIndexStr, ht, hs]

/-- C7 witness: the scenario evaluated at empty metadata and the empty
tally. -/
theorem c7_witness :
    dedupedOf ⟨1, [100, 100, 7018, 65000]⟩ = ["100", "7018", "65000"] ∧
    namedPathOf [] ["100", "7018", "65000"] = ["100", "AT&T", "END"] ∧
    classifyRoute [] emptyStats ⟨"0.0.0.0/0", [⟨1, [100, 100, 7018, 65000]⟩], "", 0, []⟩ =
      { emptyStats with tier1 := mapIncr emptyStats.tier1 "AT&T",
                        tier2 := mapIncr emptyStats.tier2 "100 -> AT&T -> END" } :=
  c7_scenario [] emptyStats (by decide) (by decide)

/-- C9: a merged route lacking a usable AS path is skipped silently by
classification: it changes no bucket, and removing it from anywhere in
the route list leaves the final tallies unchanged. -/
theorem c9_malformed_skipped (m : List (String × ASNInfo)) (stats : TierStats)
    (route : BGPRoute) (h : route.aspath = [])
    (pre post : List BGPRoute) :
    classifyRoute m stats route = stats ∧
    classifyAll m (pre ++ route :: post) = classifyAll m (pre ++ post) := by
  refine ⟨classifyRoute_no_aspath m stats route h, ?_⟩
  simp [classifyAll, List.foldl_append, List.foldl_cons,
    classifyRoute_no_aspath m _ route h]

/-- C9 witness: a route with an empty `aspath` between two well-formed
routes contributes nothing. -/
theorem c9_witness :
    classifyRoute [] emptyStats ⟨"p", [], "", 0, []⟩ = emptyStats ∧
    classifyAll [] ([⟨"p", [⟨1, [65000]⟩], "", 0, []⟩] ++
        (⟨"p", [], "", 0, []⟩ : BGPRoute) :: [⟨"q", [⟨1, [65001]⟩], "", 0, []⟩]) =
      classifyAll [] ([⟨"p", [⟨1, [65000]⟩], "", 0, []⟩] ++
        [⟨"q", [⟨1, [65001]⟩], "", 0, []⟩]) :=
  c9_malformed_skipped [] emptyStats ⟨"p", [], "", 0, []⟩ rfl
    [⟨"p", [⟨1, [65000]⟩], "", 0, []⟩] [⟨"q", [⟨1, [65001]⟩], "", 0, []⟩]

/-- C10: a route whose `aspath[0].asns` is present but empty is NOT
skipped (an empty array is truthy in JS): it is counted in `totalPaths`
and increments DIRECT by exactly 1 — the deduplicated length 0 satisfies
`n <= 2` and the absent first hop (`undefined`, coerced to the property
key `"undefined"`) is not in the curated table — and it contributes to no
other bucket. -/
theorem c10_empty_asns_direct (m : List (String × ASNInfo)) (stats : TierStats)
    (route : BGPRoute) (ap : ASPath) (rest : List ASPath)
    (hap : route.aspath = ap :: rest) (hasns : ap.asns = [])
    (pre post : List BGPRoute) :
    classifyRoute m stats route =
      { stats with direct := mapIncr stats.direct "DIRECT" } ∧
    totalPathsOf (pre ++ route :: post) = totalPathsOf (pre ++ post) + 1 := by
  constructor
  · have hd : dedupedOf ap = [] := by
      simp [dedupedOf, hasns, deduplicatePath]
    have hu : isTier1ASN "undefined" = false := by decide
    simp [classifyRoute, hap, hd, jsIndexStr, hu]
  · simp [totalPathsOf]
    omega

/-- C10 witness: a concrete empty-`asns` route increments DIRECT and is
counted in `totalPaths`. -/
theorem c10_witness :
    classifyRoute [] emptyStats ⟨"p", [⟨1, []⟩], "", 0, []⟩ =
      { emptyStats with direct := mapIncr emptyStats.direct "DIRECT" } ∧
    totalPathsOf ([] ++ (⟨"p", [⟨1, []⟩], "", 0, []⟩ : BGPRoute) :: []) =
      totalPathsOf ([] ++ []) + 1 :=
  c10_empty_asns_direct [] emptyStats ⟨"p", [⟨1, []⟩], "", 0, []⟩ ⟨1, []⟩ [] rfl rfl [] []

/-- C1 counterexample: the claim — that some route with deduplicated
length 2 and a non-curated first hop makes DIRECT and TIER1 both fire —
is false: for `n = 2` the TIER1 candidate `sequence[n-2]` IS the first
hop, so TIER1 requires exactly what DIRECT forbids; the TIER1 bucket is
always left unchanged for such routes. -/
theorem c1_counterexample :
    ¬ ∃ (m : List (String × ASNInfo)) (stats : TierStats) (route : BGPRoute)
        (ap : ASPath),
      route.aspath.head? = some ap ∧
      (dedupedOf ap).length = 2 ∧
      isTier1ASN (jsIndexStr (dedupedOf ap) 0) = false ∧
      (classifyRoute m stats route).direct = mapIncr stats.direct "DIRECT" ∧
      (classifyRoute m stats route).tier1 ≠ stats.tier1 := by
  rintro ⟨m, stats, route, ap, hhead, hlen, hfirst, -, htier1⟩
  apply htier1
  simp only [classifyRoute, hhead]
  rw [hlen]
  simp [hlen, hfirst]

/-- C1 amended: for every route whose deduplicated sequence has length 2
and whose first hop is not a key of the curated operator table,
classification increments DIRECT and changes nothing else; in particular
the TIER1 bucket does not fire (DIRECT and TIER1 are mutually exclusive
at length 2). -/
theorem c1_amended_direct_tier1_exclusive (m : List (String × ASNInfo))
    (stats : TierStats) (route : BGPRoute) (ap : ASPath)
    (hhead : route.aspath.head? = some ap)
    (hlen : (dedupedOf ap).length = 2)
    (hfirst : isTier1ASN (jsIndexStr (dedupedOf ap) 0) = false) :
    classifyRoute m stats route =
      { stats with direct := mapIncr stats.direct "DIRECT" } := by
  simp only [classifyRoute, hhead]
  rw [hlen]
  simp [hlen, hfirst]

/-- C1 amended witness: the route `[65000, 65001]` (deduplicated length
2, first hop not curated) increments DIRECT only. -/
theorem c1_amended_witness :
    classifyRoute [] emptyStats ⟨"p", [⟨1, [65000, 65001]⟩], "", 0, []⟩ =
      { emptyStats with direct := mapIncr emptyStats.direct "DIRECT" } :=
  c1_amended_direct_tier1_exclusive [] emptyStats
    ⟨"p", [⟨1, [65000, 65001]⟩], "", 0, []⟩ ⟨1, [65000, 65001]⟩ rfl
    (by decide) (by decide)

/-! ## Claims about ranking and the empty-merge guard -/

theorem pctGE_trans : ∀ a b c : PathInfo, pctGE a b → pctGE b c → pctGE a c := by
  intro a b c hab hbc
  simp only [pctGE, decide_eq_true_eq] at *
  exact le_trans hbc hab

theorem pctGE_total : ∀ a b : PathInfo, pctGE a b || pctGE b a := by
  intro a b
  simp only [pctGE]
  rcases le_total a.percentage b.percentage with h | h <;> simp [h]

theorem mergeSort_pct_filter (l : List PathInfo) (v : ℚ) :
    (l.mergeSort pctGE).filter (fun p => p.percentage = v) =
      l.filter (fun p => p.percentage = v) := by
  have hpair : (l.filter (fun p => p.percentage = v)).Pairwise
      (fun a b => pctGE a b) := by
    apply List.pairwise_of_forall_mem_list
    intro a ha b hb
    have ha' := (List.mem_filter.mp ha).2
    have hb' := (List.mem_filter.mp hb).2
    simp only [decide_eq_true_eq] at ha' hb'
    simp [pctGE, ha', hb']
  have hsub : List.Sublist (l.filter (fun p => p.percentage = v))
      (l.mergeSort pctGE) :=
    List.sublist_mergeSort pctGE_trans pctGE_total hpair (List.filter_sublist l)
  have hsub2 : List.Sublist (l.filter (fun p => p.percentage = v))
      ((l.mergeSort pctGE).filter (fun p => p.percentage = v)) := by
    have := hsub.filter (fun p => decide (p.percentage = v))
    simpa [List.filter_filter] using this
  have hperm : ((l.mergeSort pctGE).filter (fun p => p.percentage = v)).Perm
      (l.filter (fun p => p.percentage = v)) :=
    (List.mergeSort_perm l pctGE).filter _
  exact (hsub2.eq_of_length hperm.length_eq.symm).symm

/-- C6: for each bucket the ranked list consists of the bucket's entries
mapped to `PathInfo` records with percentage `100 * count / totalPaths`
(conjuncts 3 and 6), stably sorted by descending percentage (conjuncts
4-5: sorted, and elements of equal percentage keep their insertion
order), and truncated to at most 5 entries (conjuncts 1-2); the display
list concatenates the DIRECT, TIER1, TIER2, TIER3 lists in that fixed
order and is truncated to the first 15 entries (conjuncts 7-8). -/
theorem c6_ranking (totalPaths : Nat) (m : List (String × Nat)) (tier : String)
    (stats : TierStats) :
    convertToSortedArray totalPaths m tier =
      ((bucketInfos totalPaths m tier).mergeSort pctGE).take 5 ∧
    (convertToSortedArray totalPaths m tier).length ≤ 5 ∧
    ((bucketInfos totalPaths m tier).mergeSort pctGE).Perm
      (bucketInfos totalPaths m tier) ∧
    ((bucketInfos totalPaths m tier).mergeSort pctGE).Pairwise
      (fun a b => b.percentage ≤ a.percentage) ∧
    (∀ v : ℚ, ((bucketInfos totalPaths m tier).mergeSort pctGE).filter
        (fun p => p.percentage = v) =
      (bucketInfos totalPaths m tier).filter (fun p => p.percentage = v)) ∧
    (∀ p ∈ bucketInfos totalPaths m tier,
      p.tier = tier ∧ (p.path, p.count) ∈ m ∧
      p.percentage = 100 * (p.count : ℚ) / (totalPaths : ℚ)) ∧
    displayedPaths totalPaths stats =
      (convertToSortedArray totalPaths stats.direct "DIRECT" ++
       convertToSortedArray totalPaths stats.tier1 "T1" ++
       convertToSortedArray totalPaths stats.tier2 "T2" ++
       convertToSortedArray totalPaths stats.tier3 "T3").take 15 ∧
    (displayedPaths totalPaths stats).length ≤ 15 := by
  refine ⟨rfl, ?_, List.mergeSort_perm _ _, ?_, mergeSort_pct_filter _, ?_, rfl, ?_⟩
  · simp only [convertToSortedArray, List.length_take]
    exact Nat.min_le_left _ _
  · have hs := List.sorted_mergeSort pctGE_trans pctGE_total
      (bucketInfos totalPaths m tier)
    exact hs.imp (fun h => by simpa [pctGE, decide_eq_true_eq] using h)
  · intro p hp
    rcases List.mem_map.mp hp with ⟨q, hq, rfl⟩
    refine ⟨rfl, by simpa using hq, ?_⟩
    simp only
    ring
  · simp only [displayedPaths, List.length_take]
    exact Nat.min_le_left _ _

/-- C6 witness: at the bucket `[(A, 1), (B, 3)]` with 4 total paths, the
stability equation holds at percentage 25 and the entry `(B, 3)` maps to
tier `T1` with percentage `100 * 3 / 4`. -/
theorem c6_witness :
    ((bucketInfos 4 [("A", 1), ("B", 3)] "T1").mergeSort pctGE).filter
        (fun p => p.percentage = 25) =
      (bucketInfos 4 [("A", 1), ("B", 3)] "T1").filter
        (fun p => p.percentage = 25) ∧
    ((⟨"B", 3, (3 : ℚ) / ((4 : ℕ) : ℚ) * 100, "T1"⟩ : PathInfo).tier = "T1" ∧
      ("B", 3) ∈ [("A", 1), ("B", 3)] ∧
      (⟨"B", 3, (3 : ℚ) / ((4 : ℕ) : ℚ) * 100, "T1"⟩ : PathInfo).percentage =
        100 * ((3 : ℕ) : ℚ) / ((4 : ℕ) : ℚ)) :=
  ⟨(c6_ranking 4 [("A", 1), ("B", 3)] "T1" emptyStats).2.2.2.2.1 25,
   (c6_ranking 4 [("A", 1), ("B", 3)] "T1" emptyStats).2.2.2.2.2.1
     ⟨"B", 3, (3 : ℚ) / ((4 : ℕ) : ℚ) * 100, "T1"⟩ (by simp [bucketInfos])⟩

/-- C8: with no source data at all the analysis reports the no-data
error; with sources present but an empty merged route set it returns the
"no routes found" report and produces no ranked entry at all (so no
percentage is computed); and whenever ranked entries can be produced the
denominator `totalPaths` is strictly positive. -/
theorem c8_no_routes (cidr : String) (heData bgpToolsData : Option BGPResponse) :
    (heData = none → bgpToolsData = none →
      analyzeBGPData cidr heData bgpToolsData =
        errorMsg "No data available from any source") ∧
    (∀ mr : MergeResult, mergeAll heData bgpToolsData = .ok mr →
      (heData.isSome ∨ bgpToolsData.isSome) →
      mr.allRoutes = [] →
        analyzeBGPData cidr heData bgpToolsData = noRoutesMsg cidr ∧
        displayedPaths (totalPathsOf mr.allRoutes)
          (classifyAll mr.allASNMap mr.allRoutes) = []) ∧
    (∀ mr : MergeResult, mergeAll heData bgpToolsData = .ok mr →
      mr.allRoutes ≠ [] → 0 < totalPathsOf mr.allRoutes) := by
  refine ⟨?_, ?_, ?_⟩
  · rintro rfl rfl
    rfl
  · intro mr hmr hsome hempty
    constructor
    · rcases hsome with h | h
      · rcases heData with _ | d
        · simp at h
        · simp [analyzeBGPData, hmr, hempty, except_ok_bind, except_pure]
      · rcases bgpToolsData with _ | d
        · simp at h
        · simp [analyzeBGPData, hmr, hempty, except_ok_bind, except_pure]
    · simp [hempty, displayedPaths, allPathsOf, classifyAll, emptyStats,
        convertToSortedArray, bucketInfos]
  · intro mr hmr hne
    simpa [totalPathsOf, List.length_pos] using hne

/-- C8 witness: a present source with zero routes and an absent source
yield the "no routes found" report and an empty display list; a
singleton merge has a positive denominator. -/
theorem c8_witness :
    (analyzeBGPData "1.2.3.0/24" (some ⟨0, []⟩) none = noRoutesMsg "1.2.3.0/24" ∧
      displayedPaths (totalPathsOf ([] : List BGPRoute)) (classifyAll [] []) = []) ∧
    analyzeBGPData "x" none none = errorMsg "No data available from any source" ∧
    0 < totalPathsOf [⟨"p", [⟨1, [65000]⟩], "", 0, []⟩] :=
  ⟨(c8_no_routes "1.2.3.0/24" (some ⟨0, []⟩) none).2.1 ⟨[], [], 0, 0⟩ (by decide)
      (Or.inl (by decide)) rfl,
   (c8_no_routes "x" none none).1 rfl rfl,
   (c8_no_routes "p" (some ⟨1, [⟨"p", [⟨1, [65000]⟩], "", 0, []⟩]⟩) none).2.2
     ⟨[⟨"p", [⟨1, [65000]⟩], "", 0, []⟩], [], 1, 0⟩ (by decide) (by decide)⟩

end BGPBot
